import Mathlib

/-!
Shallow embedding of the resumedogs backend (FastAPI service) and proofs of
the specification claims about it.

The embedding models the pure decision logic of each Python function; the
outcomes of external collaborators (the pdflatex subprocess, the Supabase
store, the LLM chain, the JWT library, the email provider, the filesystem)
are passed in explicitly as environment/oracle values, so every definition
is an executable total function.
-/

deriving instance DecidableEq for Except

namespace ResumeDogs

/-- Model of `fastapi.HTTPException`: a status code plus a detail string. -/
structure HTTPError where
  statusCode : Nat
  detail : String
deriving Repr, DecidableEq

/-- Python exception kinds that the handlers distinguish:
`ValueError`, `RuntimeError`, and an already-formed `HTTPException`. -/
inductive PyError where
  | valueError (msg : String)
  | runtimeError (msg : String)
  | httpError (e : HTTPError)
deriving Repr, DecidableEq

/-! ## Character-level string helpers

Python string operations are modelled on `List Char` (Python `str`
indexing/slicing is by code point, as is `List Char`), with structural
recursion so that concrete instances evaluate by `decide`/`rfl`. -/

/-- Python `str.splitlines` restricted to the `\n` separator (the pdflatex
stderr text is read with `text=True`, which normalizes newlines to `\n`):
splits at every newline and produces no trailing empty line. -/
def pySplitlines : List Char → List (List Char)
  | [] => []
  | c :: cs =>
    if c = '\n' then [] :: pySplitlines cs
    else
      match pySplitlines cs with
      | [] => [[c]]
      | l :: ls => (c :: l) :: ls

/-- String-level wrapper for `pySplitlines`. -/
def splitlines (s : String) : List String :=
  (pySplitlines s.toList).map List.asString

/-- Python negative-index tail slice `l[-n:]` on a list: the last `n`
elements, except that `l[-0:]` is the whole list. -/
def pyLastSlice (l : List α) (n : Nat) : List α :=
  if n = 0 then l else l.drop (l.length - n)

/-- Models `format_pdflatex_error` from latex_utils.py:
`'\n'.join(lines[-num_lines:]) if lines else 'No stderr output.'`. -/
def format_pdflatex_error (stderr : String) (num_lines : Nat) : String :=
  let lines := splitlines stderr
  if lines = [] then "No stderr output."
  else String.intercalate "\n" (pyLastSlice lines num_lines)

/-- Substring test on char lists: Python `p in s` for strings. -/
def lcContains : List Char → List Char → Bool
  | [], p => p.isEmpty
  | c :: rest, p => List.isPrefixOf p (c :: rest) || lcContains rest p

/-- Python `s.startswith(p)`. -/
def pyStartsWith (s p : String) : Bool :=
  List.isPrefixOf p.toList s.toList

/-- Python `s.endswith(p)`. -/
def pyEndsWith (s p : String) : Bool :=
  List.isSuffixOf p.toList s.toList

/-- Python `s.lower()` (ASCII case folding, which covers every string the
code lowercases: filename extensions and the auth scheme). -/
def pyLower (s : String) : String :=
  (s.toList.map Char.toLower).asString

/-- Python `p in s` for strings. -/
def pyContains (s p : String) : Bool :=
  lcContains s.toList p.toList

/-- Python `s[n:]`: drop the first `n` code points. -/
def pyDrop (s : String) (n : Nat) : String :=
  (s.toList.drop n).asString

/-- Python `s[:-n]` for `0 < n ≤ len(s)`: drop the last `n` code points. -/
def pyDropRight (s : String) (n : Nat) : String :=
  (s.toList.take (s.toList.length - n)).asString

/-- Python `str(x)` on an optional string, as used in f-strings:
`None` renders as "None". -/
def pyStrOfOpt : Option String → String
  | none => "None"
  | some s => s

/-! ## LaTeX compiler wrapper (latex_converter.py) -/

/-- State of the world after `run_pdflatex_command` returns, as observed by
`convert_latex_to_pdf`: the completed process (return code and stderr text)
and the produced PDF file at the expected output path (`pdfExists` is
`os.path.exists(pdf_path)`; `pdfBytes` is the file's content, so
`os.path.getsize(pdf_path)` is its length). -/
structure PdflatexOutcome where
  returncode : Int
  stderr : String
  pdfExists : Bool
  pdfBytes : List Nat
  pdfFilename : String
deriving Repr, DecidableEq

/-- Models `convert_latex_to_pdf` from latex_converter.py: regardless of the
compiler's return code, if the expected PDF file exists and is non-empty its
bytes and filename are returned; otherwise an HTTP 500 is raised whose detail
embeds the last 20 lines of the compiler's stderr. -/
def convert_latex_to_pdf (o : PdflatexOutcome) : Except HTTPError (List Nat × String) :=
  if o.pdfExists && decide (0 < o.pdfBytes.length) then
    .ok (o.pdfBytes, o.pdfFilename)
  else
    .error ⟨500,
      "PDF generation failed - output file not found or empty. pdflatex stderr (last 20 lines):\n"
        ++ format_pdflatex_error o.stderr 20⟩

/-! ## Usage/quota gate (usage.py) -/

/-- Models `check_user_usage_limits` from usage.py. The argument is the
outcome of the Supabase read: `.error msg` when the read raised an exception
(wrapped into an HTTP 500), `.ok none` when the user has no usage row
(counters default to 0 via `data.get(..., 0)`), `.ok (some (d, m))` for an
existing row. Limits are checked daily-first. -/
def check_user_usage_limits (read : Except String (Option (Int × Int))) :
    Except HTTPError (Int × Int) :=
  match read with
  | .error e => .error ⟨500, "Usage check failed: " ++ e⟩
  | .ok row =>
    let daily := (row.map Prod.fst).getD 0
    let monthly := (row.map Prod.snd).getD 0
    if daily ≥ 3 then .error ⟨429, "Daily conversion limit reached."⟩
    else if monthly ≥ 30 then .error ⟨429, "Monthly conversion limit reached."⟩
    else .ok (daily, monthly)

/-! ## File text extractor (utils.py) -/

/-- An uploaded file as the handler sees it: `file.filename` (optional),
`file.content_type` (optional), and the raw bytes returned by
`await file.read()` (each byte is a `Nat` below 256). -/
structure FileUpload where
  filename : Option String
  content_type : Option String
  content : List Nat
deriving Repr, DecidableEq

/-- Outcomes of the external parsing libraries used by
`extract_text_from_file`: the PyMuPDF page/link loop and the
docx/textract/antiword word-processor branch. `.ok text` is the text the
branch produces (for PDF, with the hyperlink listing already appended);
`.error msg` is the message of the exception the library raised. -/
structure ExtractEnv where
  pdfParse : Except String String
  wordParse : Except String String
deriving Repr, DecidableEq

/-- The 10 MiB upload cap from utils.py. -/
def MAX_FILE_SIZE : Nat := 10 * 1024 * 1024

/-- UTF-8 continuation byte test: `0x80 ≤ b < 0xC0`. -/
def utf8Cont (b : Nat) : Bool := 0x80 ≤ b && b < 0xC0

/-- Strict UTF-8 decoding as performed by Python `bytes.decode('utf-8')`:
rejects stray continuation bytes, overlong encodings, surrogates and code
points beyond U+10FFFF. Returns `none` exactly when decoding raises
`UnicodeDecodeError`. -/
def utf8Decode : List Nat → Option (List Char)
  | [] => some []
  | b :: bs =>
    if b < 0x80 then (utf8Decode bs).map (fun cs => Char.ofNat b :: cs)
    else if b < 0xC2 then none
    else if b < 0xE0 then
      match bs with
      | b1 :: bs1 =>
        if utf8Cont b1 then
          (utf8Decode bs1).map (fun cs => Char.ofNat ((b - 0xC0) * 0x40 + (b1 - 0x80)) :: cs)
        else none
      | [] => none
    else if b < 0xF0 then
      match bs with
      | b1 :: b2 :: bs2 =>
        if utf8Cont b1 && utf8Cont b2 then
          let cp := (b - 0xE0) * 0x1000 + (b1 - 0x80) * 0x40 + (b2 - 0x80)
          if 0x800 ≤ cp && !(0xD800 ≤ cp && cp ≤ 0xDFFF) then
            (utf8Decode bs2).map (fun cs => Char.ofNat cp :: cs)
          else none
        else none
      | _ => none
    else if b < 0xF5 then
      match bs with
      | b1 :: b2 :: b3 :: bs3 =>
        if utf8Cont b1 && utf8Cont b2 && utf8Cont b3 then
          let cp := (b - 0xF0) * 0x40000 + (b1 - 0x80) * 0x1000 + (b2 - 0x80) * 0x40 + (b3 - 0x80)
          if 0x10000 ≤ cp && cp ≤ 0x10FFFF then
            (utf8Decode bs3).map (fun cs => Char.ofNat cp :: cs)
          else none
        else none
      | _ => none
    else none

/-- Python `bytes.decode('latin-1')`: every byte maps to the code point of
the same value, so it never fails. -/
def latin1Decode (content : List Nat) : List Char :=
  content.map Char.ofNat

/-- Dispatch condition of the PDF branch of `extract_text_from_file`. -/
def isPdfUpload (file : FileUpload) : Bool :=
  file.content_type == some "application/pdf"
    || pyEndsWith (pyLower (file.filename.getD "unknown_file")) ".pdf"

/-- Dispatch condition of the DOCX/DOC branch of `extract_text_from_file`. -/
def isWordUpload (file : FileUpload) : Bool :=
  file.content_type == some "application/vnd.openxmlformats-officedocument.wordprocessingml.document"
    || file.content_type == some "application/msword"
    || pyEndsWith (pyLower (file.filename.getD "unknown_file")) ".docx"
    || pyEndsWith (pyLower (file.filename.getD "unknown_file")) ".doc"

/-- Dispatch condition of the text/markdown branch of `extract_text_from_file`. -/
def isTextUpload (file : FileUpload) : Bool :=
  file.content_type == some "text/markdown"
    || file.content_type == some "text/plain"
    || pyEndsWith (pyLower (file.filename.getD "unknown_file")) ".md"
    || pyEndsWith (pyLower (file.filename.getD "unknown_file")) ".txt"

/-- Models `extract_text_from_file` from utils.py: size cap first, then the
empty-content check, then dispatch on declared content type or filename
extension (PDF, then Word, then text/markdown, else 415). The text branch
decodes UTF-8 and falls back to Latin-1 on `UnicodeDecodeError`. -/
def extract_text_from_file (file : FileUpload) (env : ExtractEnv) : Except HTTPError String :=
  if file.content.length > MAX_FILE_SIZE then
    .error ⟨413, "File size exceeds limit (10.0 MB)."⟩
  else if file.content = [] then
    .error ⟨400, "Uploaded file is empty."⟩
  else if isPdfUpload file then
    match env.pdfParse with
    | .ok text => .ok text
    | .error msg => .error ⟨400, "Could not parse PDF file: " ++ msg⟩
  else if isWordUpload file then
    match env.wordParse with
    | .ok text => .ok text
    | .error msg => .error ⟨400, "Could not parse Word file: " ++ msg⟩
  else if isTextUpload file then
    match utf8Decode file.content with
    | some chars => .ok chars.asString
    | none => .ok (latin1Decode file.content).asString
  else
    .error ⟨415, "Unsupported file type: '" ++ pyStrOfOpt file.content_type
      ++ "'. Please upload PDF, DOCX, MD, or TXT."⟩

/-! ## LLM transformation chains (resume_processor.py)

The hosted chat model call `chain.ainvoke(...)` is an external collaborator;
its outcome is an oracle value `Except String String` (raised exception
message, or returned text). -/

/-- Code-fence stripping from `generate_latex_resume`: if the output starts
with the nine characters "```latex\n", the first eight characters are
removed (the slice in the source is `[8:]`); then, if the result ends with
"\n```", the last four characters are removed. -/
def stripLatexFence (latex_resume : String) : String :=
  let s1 := if pyStartsWith latex_resume "```latex\n" then pyDrop latex_resume 8
            else latex_resume
  if pyEndsWith s1 "\n```" then pyDropRight s1 4 else s1

/-- Models `generate_latex_resume` from resume_processor.py: empty content
raises `ValueError`; a chain exception is wrapped into
`RuntimeError("LaTeX conversion failed: ...")`; otherwise the chain output
is returned with the code-fence markers stripped from its ends. -/
def generate_latex_resume (resume_content : String)
    (chainOutcome : Except String String) : Except PyError String :=
  if resume_content = "" then
    .error (.valueError "Resume content cannot be empty")
  else
    match chainOutcome with
    | .error e => .error (.runtimeError ("LaTeX conversion failed: " ++ e))
    | .ok latex_resume => .ok (stripLatexFence latex_resume)

/-- The canned refusal phrases scanned by `generate_tailored_resume`. -/
def refusal_patterns : List String :=
  ["provide the content", "ready to help", "cannot fulfill", "i need the resume"]

/-- Python `s.strip()` (whitespace trim at both ends). -/
def pyStrip (s : String) : String :=
  ((s.toList.dropWhile Char.isWhitespace).reverse.dropWhile Char.isWhitespace).reverse.asString

/-- Models `generate_tailored_resume` from resume_processor.py: empty inputs
raise `ValueError`; an empty-after-strip output raises `RuntimeError`; a
short output matching a refusal pattern raises `RuntimeError`; a chain
exception is wrapped into `RuntimeError("Processing failed: ...")`;
otherwise the stripped output is returned. -/
def generate_tailored_resume (resume_content : String) (job_description : String)
    (chainOutcome : Except String String) : Except PyError String :=
  if resume_content = "" || job_description = "" then
    .error (.valueError "Resume content and job description cannot be empty.")
  else
    match chainOutcome with
    | .error e => .error (.runtimeError ("Processing failed: " ++ e))
    | .ok t =>
      if pyStrip t = "" then
        .error (.runtimeError "Failed to generate valid resume text.")
      else if t.toList.length < 100
          && refusal_patterns.any (fun p => pyContains (pyLower t) p) then
        .error (.runtimeError "Failed to process the input resume/JD. Please check the input data.")
      else .ok (pyStrip t)

/-! ## Notification layer (email_service.py) -/

/-- Environment of one notification attempt: the configured signing secret
(the `secret = None  # Set Supabase JWKS secret here` slot), the outcome of
`jwt.decode` projected to the `email` claim (`.error` = the decode raised,
`.ok none` = no `email` claim, `.ok (some e)` = claim present), and the
outcome of `resend.Emails.send`. -/
structure EmailEnv where
  secret : Option String
  decodedEmail : Except String (Option String)
  providerSend : Except String Unit
deriving Repr, DecidableEq

/-- Models `get_email_from_jwt` from email_service.py: an unset (or empty)
secret, a failed decode, and a missing or empty `email` claim all yield
`none`; nothing is raised. -/
def get_email_from_jwt (env : EmailEnv) : Option String :=
  match env.secret with
  | none => none
  | some s =>
    if s = "" then none
    else
      match env.decodedEmail with
      | .error _ => none
      | .ok none => none
      | .ok (some e) => if e = "" then none else some e

/-- Models `send_resume_conversion_email` from email_service.py: `true` when
the provider call succeeds, `false` when it raises. -/
def send_resume_conversion_email (env : EmailEnv) : Bool :=
  match env.providerSend with
  | .ok _ => true
  | .error _ => false

/-- Models `send_resume_conversion_notification` from email_service.py: a
total Bool-valued function (the Python function catches every exception and
returns a boolean). `false` when no email could be extracted from the token,
otherwise the outcome of the provider send. -/
def send_resume_conversion_notification (env : EmailEnv) : Bool :=
  match get_email_from_jwt env with
  | none => false
  | some e => if e = "" then false else send_resume_conversion_email env

/-! ## Authentication (auth_utils.py and the FastAPI HTTPBearer dependency) -/

/-- Models `get_user_id_from_jwt` from auth_utils.py. `secret` is the
configured `secret = None  # Set Supabase JWKS secret here` slot; `decoded`
is the outcome of `jwt.decode` projected to the `sub` claim. An unset or
empty secret raises HTTP 500 before the token is looked at; a decode failure
or a missing/empty `sub` raises HTTP 401 (the inner 401 raised for a missing
`sub` is itself caught by the function's blanket `except` and re-wrapped,
still as a 401). -/
def get_user_id_from_jwt (secret : Option String)
    (decoded : Except String (Option String)) : Except HTTPError String :=
  if secret = none ∨ secret = some "" then
    .error ⟨500, "SUPABASE_JWKS_SECRET not set."⟩
  else
    match decoded with
    | .error e => .error ⟨401, "Invalid authentication credentials: " ++ e⟩
    | .ok none =>
      .error ⟨401, "Invalid authentication credentials: 401: Invalid authentication credentials"⟩
    | .ok (some uid) =>
      if uid = "" then
        .error ⟨401, "Invalid authentication credentials: 401: Invalid authentication credentials"⟩
      else .ok uid

/-- Python `authorization.partition(" ")` reduced to its first and third
components, as in FastAPI's `get_authorization_scheme_param`. -/
def pyPartitionSpace (s : String) : String × String :=
  match pyPartitionSpaceAux s.toList with
  | (a, b) => (a.asString, b.asString)
where
  pyPartitionSpaceAux : List Char → List Char × List Char
    | [] => ([], [])
    | c :: cs =>
      if c = ' ' then ([], cs)
      else
        let p := pyPartitionSpaceAux cs
        (c :: p.1, p.2)

/-- Models `fastapi.security.HTTPBearer.__call__` with the default
`auto_error=True`, which is what each endpoint declares inline via
`Depends(HTTPBearer())`: a missing `Authorization` header, or one without
both a scheme and credentials, raises HTTP 403 "Not authenticated"; a
non-Bearer scheme raises HTTP 403 "Invalid authentication credentials";
otherwise the credentials string is produced. -/
def HTTPBearer_check (authorization : Option String) : Except HTTPError String :=
  match authorization with
  | none => .error ⟨403, "Not authenticated"⟩
  | some a =>
    let scheme := (pyPartitionSpace a).1
    let credentials := (pyPartitionSpace a).2
    if a = "" ∨ scheme = "" ∨ credentials = "" then
      .error ⟨403, "Not authenticated"⟩
    else if pyLower scheme ≠ "bearer" then
      .error ⟨403, "Invalid authentication credentials"⟩
    else .ok credentials

/-! ## API layer (main.py)

Each handler is modelled as a function from an environment of external
outcomes to a pair of the HTTP response and the ordered list of observable
side-effecting steps the handler performed. -/

/-- Observable side-effecting steps of a request, in the order the handler
performs them. `quotaCheck` is the Supabase usage read, `modelCall` the
`chain.ainvoke` LLM call, `compile` the pdflatex subprocess run, `upload`
the bucket write, `insertRecord` the audit-table insert, `emailAttempt` the
notification attempt, `increment` the `increment_user_usage` counter write. -/
inductive Event where
  | quotaCheck
  | extraction
  | modelCall
  | compile
  | upload
  | insertRecord
  | emailAttempt
  | increment
deriving Repr, DecidableEq

/-- The `except` clauses of the `/convert-latex` handler: `HTTPException`
is re-raised; every other exception becomes a 500 whose detail is `str(e)`. -/
def handleConvertLatexError : PyError → HTTPError
  | .valueError m => ⟨500, m⟩
  | .runtimeError m => ⟨500, m⟩
  | .httpError e => e

/-- The `except` clauses of the `/tailor` and `/convert-json-to-latex`
handlers: `HTTPException` re-raised, `ValueError` becomes 400 `str(ve)`,
`RuntimeError` becomes 500 `str(re)`. -/
def handleTypedError : PyError → HTTPError
  | .valueError m => ⟨400, m⟩
  | .runtimeError m => ⟨500, m⟩
  | .httpError e => e

/-- Environment of one `/convert-latex` request: the configured JWT secret,
the `jwt.decode` outcome for the `sub` claim, the Supabase usage read, the
uploaded file, the parsing-library outcomes, the LLM chain outcome, the
pdflatex outcome, the bucket-upload outcome (public URL or exception), the
audit-insert outcome, and the notification environment. -/
structure ConvertEnv where
  secret : Option String
  decodedSub : Except String (Option String)
  usageRead : Except String (Option (Int × Int))
  file : FileUpload
  extractEnv : ExtractEnv
  chainOutcome : Except String String
  pdflatex : PdflatexOutcome
  uploadOutcome : Except String String
  insertOutcome : Except String Unit
  emailEnv : EmailEnv
deriving Repr, DecidableEq

/-- Extension allow-list check of `/convert-latex`:
`resume_file.filename.lower().endswith((".pdf", ".md", ".docx", ".doc"))`. -/
def allowedConvertExtension (filename : String) : Bool :=
  pyEndsWith (pyLower filename) ".pdf" || pyEndsWith (pyLower filename) ".md"
    || pyEndsWith (pyLower filename) ".docx" || pyEndsWith (pyLower filename) ".doc"

/-- Models the `/convert-latex` handler (`convert_to_latex_endpoint` in
main.py): auth, quota check, filename checks, extraction, LaTeX generation
(the chain is invoked only when the extracted text is non-empty),
compilation, upload, audit insert, best-effort email and cleanup, and — only
after the whole try-block succeeded — the usage increment. The response on
success is the public `resume_link`. -/
def convert_to_latex_endpoint (env : ConvertEnv) :
    Except HTTPError String × List Event :=
  match get_user_id_from_jwt env.secret env.decodedSub with
  | .error e => (.error e, [])
  | .ok _user_id =>
    match check_user_usage_limits env.usageRead with
    | .error e => (.error e, [.quotaCheck])
    | .ok _dm =>
      if env.file.filename = none ∨ env.file.filename = some "" then
        (.error ⟨400, "Filename cannot be empty."⟩, [.quotaCheck])
      else if ¬ allowedConvertExtension (env.file.filename.getD "") then
        (.error ⟨400, "Only PDF, Markdown (.md), DOCX, and DOC files are supported."⟩,
          [.quotaCheck])
      else
        match extract_text_from_file env.file env.extractEnv with
        | .error e => (.error e, [.quotaCheck, .extraction])
        | .ok text =>
          let evts := [Event.quotaCheck, Event.extraction]
            ++ (if text = "" then [] else [Event.modelCall])
          match generate_latex_resume text env.chainOutcome with
          | .error pe => (.error (handleConvertLatexError pe), evts)
          | .ok _latex =>
            match convert_latex_to_pdf env.pdflatex with
            | .error e => (.error e, evts ++ [.compile])
            | .ok _pdf =>
              match env.uploadOutcome with
              | .error msg => (.error ⟨500, msg⟩, evts ++ [.compile, .upload])
              | .ok url =>
                match env.insertOutcome with
                | .error msg =>
                  (.error ⟨500, msg⟩, evts ++ [.compile, .upload, .insertRecord])
                | .ok _ =>
                  (.ok url,
                    evts ++ [.compile, .upload, .insertRecord, .emailAttempt, .increment])

/-- Environment of one `/convert-json-to-latex` request. `chainAvailable`
models the truthiness of the module-global `latex_conversion_chain`;
`resumeJson` is `resume_data.model_dump_json(indent=2)` (serialization of a
validated Pydantic model never raises and is never empty, but the model does
not assume that). -/
structure ConvertJsonEnv where
  secret : Option String
  decodedSub : Except String (Option String)
  usageRead : Except String (Option (Int × Int))
  chainAvailable : Bool
  resumeJson : String
  chainOutcome : Except String String
  pdflatex : PdflatexOutcome
  uploadOutcome : Except String String
  insertOutcome : Except String Unit
  emailEnv : EmailEnv
deriving Repr, DecidableEq

/-- Models the `/convert-json-to-latex` handler
(`convert_json_to_latex_endpoint` in main.py): auth, quota check, chain
availability (503), LaTeX generation from the serialized JSON, compilation,
upload, audit insert, best-effort email and cleanup, usage increment, then
the response `(resume_link, pdf_filename)`. -/
def convert_json_to_latex_endpoint (env : ConvertJsonEnv) :
    Except HTTPError (String × String) × List Event :=
  match get_user_id_from_jwt env.secret env.decodedSub with
  | .error e => (.error e, [])
  | .ok _user_id =>
    match check_user_usage_limits env.usageRead with
    | .error e => (.error e, [.quotaCheck])
    | .ok _dm =>
      if ¬ env.chainAvailable then
        (.error ⟨503, "Resume processing service temporarily unavailable."⟩, [.quotaCheck])
      else
        let evts := [Event.quotaCheck]
          ++ (if env.resumeJson = "" then [] else [Event.modelCall])
        match generate_latex_resume env.resumeJson env.chainOutcome with
        | .error pe => (.error (handleTypedError pe), evts)
        | .ok _latex =>
          match convert_latex_to_pdf env.pdflatex with
          | .error e => (.error e, evts ++ [.compile])
          | .ok pdf =>
            match env.uploadOutcome with
            | .error msg => (.error ⟨500, msg⟩, evts ++ [.compile, .upload])
            | .ok url =>
              match env.insertOutcome with
              | .error msg =>
                (.error ⟨500, msg⟩, evts ++ [.compile, .upload, .insertRecord])
              | .ok _ =>
                (.ok (url, pdf.2),
                  evts ++ [.compile, .upload, .insertRecord, .emailAttempt, .increment])

/-- Environment of one `/tailor` request. -/
structure TailorEnv where
  secret : Option String
  decodedSub : Except String (Option String)
  usageRead : Except String (Option (Int × Int))
  job_description : String
  file : FileUpload
  extractEnv : ExtractEnv
  chainAvailable : Bool
  chainOutcome : Except String String
deriving Repr, DecidableEq

/-- Models the `/tailor` handler (`tailor_resume_endpoint` in main.py):
auth, quota check, empty-filename check, extraction, chain availability
(503), tailoring (the chain is invoked only when both texts are non-empty),
usage increment, then the response (filename, original length, job
description length, tailored text). -/
def tailor_resume_endpoint (env : TailorEnv) :
    Except HTTPError (String × Nat × Nat × String) × List Event :=
  match get_user_id_from_jwt env.secret env.decodedSub with
  | .error e => (.error e, [])
  | .ok _user_id =>
    match check_user_usage_limits env.usageRead with
    | .error e => (.error e, [.quotaCheck])
    | .ok _dm =>
      if env.file.filename = none ∨ env.file.filename = some "" then
        (.error ⟨400, "Filename cannot be empty."⟩, [.quotaCheck])
      else
        match extract_text_from_file env.file env.extractEnv with
        | .error e => (.error e, [.quotaCheck, .extraction])
        | .ok text =>
          if ¬ env.chainAvailable then
            (.error ⟨503, "Resume processing service temporarily unavailable."⟩,
              [.quotaCheck, .extraction])
          else
            let evts := [Event.quotaCheck, Event.extraction]
              ++ (if text = "" || env.job_description = "" then [] else [Event.modelCall])
            match generate_tailored_resume text env.job_description env.chainOutcome with
            | .error pe => (.error (handleTypedError pe), evts)
            | .ok tailored =>
              (.ok (env.file.filename.getD "", text.toList.length,
                  env.job_description.toList.length, tailored),
                evts ++ [.increment])

/-- A full `/tailor` request: the `Depends(HTTPBearer())` security dependency
runs before the handler body; a request it rejects performs none of the
handler's steps. -/
def tailor_request (authHeader : Option String) (env : TailorEnv) :
    Except HTTPError (String × Nat × Nat × String) × List Event :=
  match HTTPBearer_check authHeader with
  | .error e => (.error e, [])
  | .ok _creds => tailor_resume_endpoint env

/-- A full `/convert-latex` request (HTTPBearer dependency, then handler). -/
def convert_latex_request (authHeader : Option String) (env : ConvertEnv) :
    Except HTTPError String × List Event :=
  match HTTPBearer_check authHeader with
  | .error e => (.error e, [])
  | .ok _creds => convert_to_latex_endpoint env

/-- A full `/convert-json-to-latex` request (HTTPBearer dependency, then
handler). -/
def convert_json_request (authHeader : Option String) (env : ConvertJsonEnv) :
    Except HTTPError (String × String) × List Event :=
  match HTTPBearer_check authHeader with
  | .error e => (.error e, [])
  | .ok _creds => convert_json_to_latex_endpoint env

/-! ## Concrete sample inputs used to instantiate the theorems -/

/-- A pdflatex run that produced a non-empty PDF despite a non-zero exit
status (the usual LaTeX-warning situation). -/
def okPdflatex : PdflatexOutcome :=
  ⟨1, "LaTeX Warning: Overfull hbox", true, [37, 80, 68, 70], "out.pdf"⟩

/-- A pdflatex run that produced no PDF file. -/
def failPdflatex : PdflatexOutcome :=
  ⟨1, "line one\nline two", false, [], "out.pdf"⟩

/-- A notification environment with every external step succeeding. -/
def okEmailEnv : EmailEnv := ⟨some "k", .ok (some "user@example.com"), .ok ()⟩

/-- A small markdown resume upload ("Hi"). -/
def sampleFile : FileUpload := ⟨some "resume.md", some "text/markdown", [72, 105]⟩

/-- A parsing environment (unused by the markdown branch). -/
def sampleExtractEnv : ExtractEnv := ⟨.ok "pdf text", .ok "word text"⟩

/-- A text upload whose single byte 0xFF is invalid UTF-8 but valid Latin-1. -/
def latin1File : FileUpload := ⟨some "notes.txt", some "text/plain", [255]⟩

/-- A text upload larger than the 10 MiB cap. -/
def bigFile : FileUpload :=
  ⟨some "big.txt", some "text/plain", List.replicate (MAX_FILE_SIZE + 1) 65⟩

/-- A `/convert-latex` environment in which every external step succeeds. -/
def okConvertEnv : ConvertEnv :=
  ⟨some "k", .ok (some "user-1"), .ok (some (1, 2)), sampleFile, sampleExtractEnv,
    .ok "LATEX SOURCE", okPdflatex, .ok "https://bucket.example/out.pdf", .ok (), okEmailEnv⟩

/-- A `/convert-json-to-latex` environment in which every external step
succeeds. -/
def okJsonEnv : ConvertJsonEnv :=
  ⟨some "k", .ok (some "user-1"), .ok (some (0, 0)), true, "SERIALIZED RESUME JSON",
    .ok "LATEX SOURCE", okPdflatex, .ok "https://bucket.example/out.pdf", .ok (), okEmailEnv⟩

/-- A `/tailor` environment in which every external step succeeds. -/
def okTailorEnv : TailorEnv :=
  ⟨some "k", .ok (some "user-1"), .ok (some (0, 0)),
    "A job description that is long enough to pass the length check.",
    sampleFile, sampleExtractEnv, true,
    .ok "A tailored resume text that is comfortably longer than the one hundred character refusal-scan threshold used by the generator."⟩

/-- A `/tailor` environment with the JWT secret unset, as shipped. -/
def shippedTailorEnv : TailorEnv :=
  ⟨none, .ok (some "user-1"), .ok (some (0, 0)),
    "A job description that is long enough to pass the length check.",
    sampleFile, sampleExtractEnv, true, .ok "tailored"⟩

/-- A `/convert-latex` environment with the JWT secret unset, as shipped. -/
def shippedConvertEnv : ConvertEnv :=
  ⟨none, .ok (some "user-1"), .ok (some (1, 2)), sampleFile, sampleExtractEnv,
    .ok "LATEX SOURCE", okPdflatex, .ok "https://bucket.example/out.pdf", .ok (), okEmailEnv⟩

/-- A `/convert-json-to-latex` environment with the JWT secret unset, as
shipped. -/
def shippedJsonEnv : ConvertJsonEnv :=
  ⟨none, .ok (some "user-1"), .ok (some (0, 0)), true, "SERIALIZED RESUME JSON",
    .ok "LATEX SOURCE", okPdflatex, .ok "https://bucket.example/out.pdf", .ok (), okEmailEnv⟩

/-! ## Helper lemmas -/

theorem pySplitlines_cons_ne_nil (c : Char) (cs : List Char) :
    pySplitlines (c :: cs) ≠ [] := by
  unfold pySplitlines
  split
  · simp
  · split <;> simp

theorem splitlines_ne_nil (s : String) (h : s ≠ "") : splitlines s ≠ [] := by
  unfold splitlines
  cases hs : s.toList with
  | nil =>
    exact absurd (by cases s with
      | mk data => cases data with
        | nil => rfl
        | cons c cs => simp at hs) h
  | cons c cs => simp [pySplitlines_cons_ne_nil c cs]

/-! ## Claim theorems -/

/-- C1: for every pdflatex invocation that leaves a non-empty PDF file at
the expected output path, `convert_latex_to_pdf` succeeds and returns that
PDF's bytes and filename, regardless of the compiler's reported exit
status. -/
theorem C1_nonempty_pdf_success (o : PdflatexOutcome)
    (hex : o.pdfExists = true) (hsz : 0 < o.pdfBytes.length) :
    convert_latex_to_pdf o = .ok (o.pdfBytes, o.pdfFilename) := by
  unfold convert_latex_to_pdf
  simp [hex, hsz]

theorem C1_nonempty_pdf_success_witness :
    okPdflatex.returncode ≠ 0 ∧
    convert_latex_to_pdf okPdflatex = .ok (okPdflatex.pdfBytes, okPdflatex.pdfFilename) :=
  ⟨by decide, C1_nonempty_pdf_success okPdflatex (by decide) (by decide)⟩

/-- C5 (code bug witness): the source checks for the nine-character prefix
"```latex\n" but slices `[8:]`, removing only "```latex" and leaving the
newline in place, contrary to its own comment "Remove ```latex\n prefix";
the suffix "\n```" is removed in full. -/
theorem C5_fence_slice_off_by_one :
    generate_latex_resume "resume text" (.ok "```latex\nHello\n```") = .ok "\nHello" ∧
    ("\nHello" : String) ≠ "Hello" := by
  constructor
  · decide
  · decide

/-- C7: every upload whose content exceeds 10 MiB is rejected with a 413
size error, for every declared content type, filename, and parsing-library
environment, before any type-specific parsing or the empty-content check. -/
theorem C7_oversize_rejected (file : FileUpload) (env : ExtractEnv)
    (h : MAX_FILE_SIZE < file.content.length) :
    extract_text_from_file file env = .error ⟨413, "File size exceeds limit (10.0 MB)."⟩ := by
  unfold extract_text_from_file
  rw [if_pos h]

theorem C7_oversize_rejected_witness :
    extract_text_from_file bigFile sampleExtractEnv
      = .error ⟨413, "File size exceeds limit (10.0 MB)."⟩ :=
  C7_oversize_rejected bigFile sampleExtractEnv
    (by simp [bigFile, List.length_replicate])

/-- C8: every upload dispatched to the text/markdown branch whose content
fails UTF-8 decoding (and is valid Latin-1, as every byte string is)
succeeds with the Latin-1 decoding of the content. -/
theorem C8_latin1_fallback (file : FileUpload) (env : ExtractEnv)
    (hsize : file.content.length ≤ MAX_FILE_SIZE)
    (hpdf : isPdfUpload file = false)
    (hword : isWordUpload file = false)
    (htext : isTextUpload file = true)
    (hutf8 : utf8Decode file.content = none)
    (hbytes : ∀ b ∈ file.content, b < 256) :
    extract_text_from_file file env = .ok (latin1Decode file.content).asString := by
  have hne : file.content ≠ [] := by
    intro hnil
    rw [hnil] at hutf8
    exact absurd hutf8 (by decide)
  unfold extract_text_from_file
  rw [if_neg (by omega), if_neg hne]
  simp [hpdf, hword, htext, hutf8]

theorem C8_latin1_fallback_witness :
    extract_text_from_file latin1File sampleExtractEnv
      = .ok (latin1Decode latin1File.content).asString :=
  C8_latin1_fallback latin1File sampleExtractEnv (by decide) (by decide)
    (by decide) (by decide) (by decide) (by decide)

/-- C3: assuming the usage-store read succeeds, the quota gate treats an
absent row as counters (0, 0), rejects with a 429 whose message names the
daily limit whenever daily ≥ 3 (checked first), rejects with a 429 naming
the monthly limit when daily < 3 and monthly ≥ 30, and otherwise returns
the pair of counters. -/
theorem C3_quota_gate (row : Option (Int × Int)) :
    (row = none → (row.map Prod.fst).getD 0 = 0 ∧ (row.map Prod.snd).getD 0 = 0) ∧
    (3 ≤ (row.map Prod.fst).getD 0 →
      check_user_usage_limits (.ok row) = .error ⟨429, "Daily conversion limit reached."⟩) ∧
    ((row.map Prod.fst).getD 0 < 3 → 30 ≤ (row.map Prod.snd).getD 0 →
      check_user_usage_limits (.ok row) = .error ⟨429, "Monthly conversion limit reached."⟩) ∧
    ((row.map Prod.fst).getD 0 < 3 → (row.map Prod.snd).getD 0 < 30 →
      check_user_usage_limits (.ok row)
        = .ok ((row.map Prod.fst).getD 0, (row.map Prod.snd).getD 0)) := by
  refine ⟨?_, ?_, ?_, ?_⟩
  · intro h; subst h; simp
  · intro h
    simp only [check_user_usage_limits, ge_iff_le]
    rw [if_pos h]
  · intro h1 h2
    simp only [check_user_usage_limits, ge_iff_le]
    rw [if_neg (by omega), if_pos h2]
  · intro h1 h2
    simp only [check_user_usage_limits, ge_iff_le]
    rw [if_neg (by omega), if_neg (by omega)]

theorem C3_quota_gate_witness :
    check_user_usage_limits (.ok (some (3, 5)))
      = .error ⟨429, "Daily conversion limit reached."⟩ ∧
    check_user_usage_limits (.ok none) = .ok (0, 0) :=
  ⟨(C3_quota_gate (some (3, 5))).2.1 (by decide),
   (C3_quota_gate none).2.2.2 (by decide) (by decide)⟩

/-- C6: every pdflatex invocation that leaves no PDF file, or an empty one,
makes `convert_latex_to_pdf` fail with a 500 whose detail carries the
formatted stderr tail; that tail is the fixed text "No stderr output." when
the stderr stream is empty, and otherwise a suffix of at most 20 of the
stream's lines. -/
theorem C6_failure_error (o : PdflatexOutcome)
    (h : ¬ (o.pdfExists = true ∧ 0 < o.pdfBytes.length)) :
    convert_latex_to_pdf o = .error ⟨500,
      "PDF generation failed - output file not found or empty. pdflatex stderr (last 20 lines):\n"
        ++ format_pdflatex_error o.stderr 20⟩ ∧
    (o.stderr = "" → format_pdflatex_error o.stderr 20 = "No stderr output.") ∧
    (o.stderr ≠ "" → ∃ ls, ls <:+ splitlines o.stderr ∧ ls.length ≤ 20 ∧
      format_pdflatex_error o.stderr 20 = String.intercalate "\n" ls) := by
  refine ⟨?_, ?_, ?_⟩
  · have hb : (o.pdfExists && decide (0 < o.pdfBytes.length)) = false := by
      cases hpe : o.pdfExists <;> simp_all
    unfold convert_latex_to_pdf
    rw [hb]
    rfl
  · intro he
    rw [he]
    decide
  · intro hne
    have hl := splitlines_ne_nil o.stderr hne
    unfold format_pdflatex_error
    rw [if_neg hl]
    refine ⟨(splitlines o.stderr).drop ((splitlines o.stderr).length - 20),
      List.drop_suffix _ _, ?_, ?_⟩
    · rw [List.length_drop]
      omega
    · unfold pyLastSlice
      rw [if_neg (by decide)]

theorem C6_failure_error_witness :
    convert_latex_to_pdf failPdflatex = .error ⟨500,
      "PDF generation failed - output file not found or empty. pdflatex stderr (last 20 lines):\n"
        ++ format_pdflatex_error failPdflatex.stderr 20⟩ :=
  (C6_failure_error failPdflatex (by decide)).1

/-- C9: `send_resume_conversion_notification` is a total Bool-valued
function of its environment (the Python function catches every exception),
and in particular returns `false` when the signing secret is unset, when the
decoded token carries no email claim, and when the email provider call
fails. -/
theorem C9_notification_never_raises (env : EmailEnv) :
    (env.secret = none → send_resume_conversion_notification env = false) ∧
    (env.decodedEmail = .ok none → send_resume_conversion_notification env = false) ∧
    (∀ msg, env.providerSend = .error msg → send_resume_conversion_notification env = false) := by
  obtain ⟨sec, dec, prov⟩ := env
  refine ⟨?_, ?_, ?_⟩
  · intro h
    subst h
    rfl
  · intro h
    subst h
    cases sec with
    | none => rfl
    | some s =>
      simp only [send_resume_conversion_notification, get_email_from_jwt]
      split <;> simp_all
  · intro msg h
    subst h
    cases sec with
    | none => rfl
    | some s =>
      simp only [send_resume_conversion_notification, get_email_from_jwt,
        send_resume_conversion_email]
      split
      · rfl
      · split <;> rfl

theorem C9_notification_never_raises_witness :
    send_resume_conversion_notification ⟨none, .ok (some "user@example.com"), .ok ()⟩ = false ∧
    send_resume_conversion_notification ⟨some "k", .ok none, .ok ()⟩ = false ∧
    send_resume_conversion_notification ⟨some "k", .ok (some "user@example.com"),
      .error "provider down"⟩ = false :=
  ⟨(C9_notification_never_raises _).1 rfl,
   (C9_notification_never_raises _).2.1 rfl,
   (C9_notification_never_raises _).2.2 "provider down" rfl⟩

/-- C4 (counterexample): a request with no Authorization header to `/tailor`
is answered by the `HTTPBearer` dependency with status 403, not 401 as the
claim states. -/
theorem C4_no_header_counterexample :
    ∃ e, (tailor_request none okTailorEnv).1 = .error e ∧ e.statusCode ≠ 401 :=
  ⟨⟨403, "Not authenticated"⟩, rfl, by decide⟩

/-- C4 (amended): a request with no Authorization header to any of the three
conversion endpoints is rejected by the `HTTPBearer` security dependency
with status 403 "Not authenticated" (FastAPI's `auto_error=True` default),
and no quota check, no model call, and no storage write is performed (the
event trace is empty). -/
theorem C4_no_header_rejected (tenv : TailorEnv) (cenv : ConvertEnv)
    (jenv : ConvertJsonEnv) :
    tailor_request none tenv = (.error ⟨403, "Not authenticated"⟩, []) ∧
    convert_latex_request none cenv = (.error ⟨403, "Not authenticated"⟩, []) ∧
    convert_json_request none jenv = (.error ⟨403, "Not authenticated"⟩, []) :=
  ⟨rfl, rfl, rfl⟩

/-- C10: with the JWT verification secret unset as shipped,
`get_user_id_from_jwt` raises HTTP 500 "SUPABASE_JWKS_SECRET not set." for
every decode outcome, so every request to the three conversion endpoints
fails — with exactly that error whenever a bearer token was presented — and
performs no quota check, no model call, and no storage write (the event
trace is empty for every request). -/
theorem C10_unset_secret_fails_all (decoded : Except String (Option String))
    (authHeader : Option String) (tenv : TailorEnv) (cenv : ConvertEnv)
    (jenv : ConvertJsonEnv) (ht : tenv.secret = none) (hc : cenv.secret = none)
    (hj : jenv.secret = none) :
    get_user_id_from_jwt none decoded = .error ⟨500, "SUPABASE_JWKS_SECRET not set."⟩ ∧
    ((∃ c, HTTPBearer_check authHeader = .ok c) →
      tailor_request authHeader tenv
          = (.error ⟨500, "SUPABASE_JWKS_SECRET not set."⟩, []) ∧
      convert_latex_request authHeader cenv
          = (.error ⟨500, "SUPABASE_JWKS_SECRET not set."⟩, []) ∧
      convert_json_request authHeader jenv
          = (.error ⟨500, "SUPABASE_JWKS_SECRET not set."⟩, [])) ∧
    (tailor_request authHeader tenv).2 = [] ∧
    (convert_latex_request authHeader cenv).2 = [] ∧
    (convert_json_request authHeader jenv).2 = [] := by
  have hid : ∀ d : Except String (Option String),
      get_user_id_from_jwt none d = .error ⟨500, "SUPABASE_JWKS_SECRET not set."⟩ := by
    intro d
    unfold get_user_id_from_jwt
    rw [if_pos (Or.inl rfl)]
  refine ⟨hid decoded, ?_, ?_, ?_, ?_⟩
  · rintro ⟨c, hcred⟩
    refine ⟨?_, ?_, ?_⟩
    · unfold tailor_request tailor_resume_endpoint
      rw [hcred, ht, hid]
    · unfold convert_latex_request convert_to_latex_endpoint
      rw [hcred, hc, hid]
    · unfold convert_json_request convert_json_to_latex_endpoint
      rw [hcred, hj, hid]
  · unfold tailor_request
    cases hcred : HTTPBearer_check authHeader with
    | error e => rfl
    | ok c =>
      unfold tailor_resume_endpoint
      rw [ht, hid]
  · unfold convert_latex_request
    cases hcred : HTTPBearer_check authHeader with
    | error e => rfl
    | ok c =>
      unfold convert_to_latex_endpoint
      rw [hc, hid]
  · unfold convert_json_request
    cases hcred : HTTPBearer_check authHeader with
    | error e => rfl
    | ok c =>
      unfold convert_json_to_latex_endpoint
      rw [hj, hid]

theorem C10_unset_secret_fails_all_witness :
    tailor_request (some "Bearer token") shippedTailorEnv
        = (.error ⟨500, "SUPABASE_JWKS_SECRET not set."⟩, []) ∧
    convert_latex_request (some "Bearer token") shippedConvertEnv
        = (.error ⟨500, "SUPABASE_JWKS_SECRET not set."⟩, []) ∧
    convert_json_request (some "Bearer token") shippedJsonEnv
        = (.error ⟨500, "SUPABASE_JWKS_SECRET not set."⟩, []) :=
  (C10_unset_secret_fails_all (.ok (some "user-1")) (some "Bearer token")
      shippedTailorEnv shippedConvertEnv shippedJsonEnv rfl rfl rfl).2.1
    ⟨"token", by decide⟩

/-- C2: in the `/convert-latex` and `/convert-json-to-latex` handlers, the
bucket upload and the audit-record insert are attempted only when
`convert_latex_to_pdf` succeeded (a non-empty PDF file was produced), and
the usage increment is performed only when extraction/serialization,
generation, compilation, upload and record insertion all succeeded (in which
case the response is the success response); contrapositively, if any of
those steps fails the counters are not incremented. -/
theorem C2_increment_only_after_success (env : ConvertEnv) (jenv : ConvertJsonEnv) :
    ((Event.upload ∈ (convert_to_latex_endpoint env).2 ∨
        Event.insertRecord ∈ (convert_to_latex_endpoint env).2) →
      ∃ v, convert_latex_to_pdf env.pdflatex = .ok v) ∧
    (Event.increment ∈ (convert_to_latex_endpoint env).2 →
      (∃ t, extract_text_from_file env.file env.extractEnv = .ok t ∧
        ∃ l, generate_latex_resume t env.chainOutcome = .ok l) ∧
      (∃ v, convert_latex_to_pdf env.pdflatex = .ok v) ∧
      (∃ u, env.uploadOutcome = .ok u) ∧
      env.insertOutcome = .ok () ∧
      ∃ r, (convert_to_latex_endpoint env).1 = .ok r) ∧
    ((Event.upload ∈ (convert_json_to_latex_endpoint jenv).2 ∨
        Event.insertRecord ∈ (convert_json_to_latex_endpoint jenv).2) →
      ∃ v, convert_latex_to_pdf jenv.pdflatex = .ok v) ∧
    (Event.increment ∈ (convert_json_to_latex_endpoint jenv).2 →
      (∃ l, generate_latex_resume jenv.resumeJson jenv.chainOutcome = .ok l) ∧
      (∃ v, convert_latex_to_pdf jenv.pdflatex = .ok v) ∧
      (∃ u, jenv.uploadOutcome = .ok u) ∧
      jenv.insertOutcome = .ok () ∧
      ∃ r, (convert_json_to_latex_endpoint jenv).1 = .ok r) := by
  refine ⟨?_, ?_, ?_, ?_⟩
  · unfold convert_to_latex_endpoint
    repeat' split
    all_goals simp_all
  · unfold convert_to_latex_endpoint
    repeat' split
    all_goals simp_all
  · unfold convert_json_to_latex_endpoint
    repeat' split
    all_goals simp_all
  · unfold convert_json_to_latex_endpoint
    repeat' split
    all_goals simp_all

theorem C2_increment_only_after_success_witness :
    (∃ r, (convert_to_latex_endpoint okConvertEnv).1 = .ok r) ∧
    (∃ r, (convert_json_to_latex_endpoint okJsonEnv).1 = .ok r) :=
  ⟨((C2_increment_only_after_success okConvertEnv okJsonEnv).2.1 (by decide)).2.2.2.2,
   ((C2_increment_only_after_success okConvertEnv okJsonEnv).2.2.2 (by decide)).2.2.2.2⟩

end ResumeDogs
